import Mathlib

/-!
# ISS Sky Scanner — verification of the position-prediction engine

Shallow embedding of the prediction core of the `ISS_Sky_Scanner` repository:

* `src/cloud_functions/iss_api_generate_predictions/utils.py`
  (TLE parameter loading, orbital-phase math, batch generation), and
* `src/cloud_functions/iss_api_bff_web_predictions/utils.py`
  (current / historical prediction retrieval and aggregation).

Modelling conventions, used throughout:

* Python floats are modelled as exact rationals (`ℚ`) where the code only
  parses, compares and buckets them, and as real numbers (`ℝ`) where the
  code does trigonometry (`math.asin`, `math.sin`, `math.atan2`, …).
* ISO-8601 UTC timestamp strings are modelled as integer seconds since the
  epoch (`ℤ`).  `datetime.fromisoformat` on the strings the system itself
  produces always succeeds, and lexicographic order on those strings agrees
  with chronological order, so string-keyed sorting is modelled as sorting
  by the integer timestamp.
* Network / Firestore effects are passed explicitly: an HTTP response
  becomes an `Option String` argument (`none` = request raised), a
  Firestore document read becomes an `Except String (Option Doc)`
  (exception / absent / present), and the TLE fetch performed by
  `predict_position` consumes responses from an environment `ℕ → Option
  String` indexed by a fetch counter that is threaded through the batch
  generator, so the number of network fetches is observable.
* Python `try/except` becomes `Except` results or, where the code swallows
  the exception and substitutes a value, the substituted value directly.
-/

namespace ISS

/-! ## Python float parsing (exact-rational model)

`float(s)` in Python raises `ValueError` on malformed input (modelled as
`none`) and accepts `"nan"` (modelled as a distinguished value, since the
code tests `math.isnan`).  Exponent and infinity forms are not produced by
the TLE source and are not modelled; they would land in the `none`
(exception) branch. -/

/-- Result of a successful Python `float()` call: either NaN or a finite
value, modelled exactly as a rational. -/
inductive PyFloat where
  | nan : PyFloat
  | val : ℚ → PyFloat
deriving DecidableEq, Repr

/-- Digits-to-number accumulator, as positional decimal reading. -/
def digitsToNat (cs : List Char) : ℕ :=
  cs.foldl (fun a c => 10 * a + (c.toNat - 48)) 0

/-- Python `str.strip()` on a character list: drop leading and trailing
whitespace. -/
def pyStripChars (cs : List Char) : List Char :=
  ((cs.dropWhile Char.isWhitespace).reverse.dropWhile Char.isWhitespace).reverse

/-- Splitter for Python `str.split(sep)`: cut at every separator
occurrence, keeping empty pieces. -/
def splitCharAux (sep : Char) : List Char → List Char → List (List Char)
  | [], acc => [acc.reverse]
  | c :: cs, acc =>
      if c = sep then acc.reverse :: splitCharAux sep cs []
      else splitCharAux sep cs (c :: acc)

/-- Python `str.split(sep)` on a character list. -/
def pySplitChar (sep : Char) (cs : List Char) : List (List Char) :=
  splitCharAux sep cs []

/-- Python `str.split()` (no separator): split on whitespace runs,
dropping empty pieces. -/
def pySplitWhitespace (cs : List Char) : List (List Char) :=
  (splitCharAux ' ' (cs.map fun c => if c.isWhitespace then ' ' else c) []).filter
    (· ≠ [])

/-- `float(s)` on a character list: optional sign, then digits with an
optional decimal point; `"nan"` (any case, optionally signed) parses to
NaN.  Returns `none` when Python would raise `ValueError`. -/
def parsePyFloat (s : List Char) : Option PyFloat :=
  let t := pyStripChars s
  let low := t.map Char.toLower
  if low = ['n','a','n'] ∨ low = ['+','n','a','n'] ∨ low = ['-','n','a','n'] then
    some .nan
  else
    let (sign, rest) :=
      match t with
      | '-' :: cs => ((-1 : ℚ), cs)
      | '+' :: cs => ((1 : ℚ), cs)
      | cs => ((1 : ℚ), cs)
    match pySplitChar '.' rest with
    | [intPart] =>
        if intPart ≠ [] ∧ intPart.all Char.isDigit then
          some (.val (sign * digitsToNat intPart))
        else none
    | [intPart, fracPart] =>
        if (intPart ≠ [] ∨ fracPart ≠ []) ∧ intPart.all Char.isDigit ∧
            fracPart.all Char.isDigit then
          some (.val (sign * ((digitsToNat intPart : ℚ) +
            (digitsToNat fracPart : ℚ) / (10 ^ fracPart.length))))
        else none
    | _ => none

/-! ## OrbitalParameterProvider (`load_tle_parameters`, `fetch_tle_data`) -/

/-- `DEFAULT_INCLINATION = 51.6` (degrees), written as an integer
fraction so that the kernel can evaluate it. -/
def DEFAULT_INCLINATION : ℚ := 258 / 5

/-- `DEFAULT_ORBITAL_PERIOD = 92.9` (minutes), written as an integer
fraction so that the kernel can evaluate it. -/
def DEFAULT_ORBITAL_PERIOD : ℚ := 929 / 10

/-- `DEFAULT_TIME_INTERVAL = 5.0` (minutes between data points). -/
def DEFAULT_TIME_INTERVAL : ℚ := 5

/-- The `{'inclination', 'orbital_period'}` dictionary returned by
`load_tle_parameters`. -/
structure OrbitalParameters where
  inclination : ℚ
  orbital_period : ℚ
deriving DecidableEq, Repr

/-- `_default_params()`. -/
def default_params : OrbitalParameters :=
  ⟨DEFAULT_INCLINATION, DEFAULT_ORBITAL_PERIOD⟩

/-- `fetch_tle_data()`.  The HTTP layer is the `response` argument:
`none` models a raising request or a non-2xx `raise_for_status` (both are
caught and yield `None`).  On a body with fewer than 3 lines returns
`None`;  otherwise `(lines[1].strip(), lines[2].strip())`. -/
def fetch_tle_data (response : Option String) : Option (List Char × List Char) :=
  match response with
  | none => none
  | some body =>
      let lines := pySplitChar '\n' (pyStripChars body.data)
      if lines.length < 3 then none
      else some (pyStripChars ((lines.get? 1).getD []),
                 pyStripChars ((lines.get? 2).getD []))

/-- `load_tle_parameters()`: parse inclination (field 2) and mean motion
(field 7) from TLE line 2; `orbital_period = 1440 / mean_motion` when the
mean motion is positive, else the default; out-of-range or NaN values are
replaced by their individual defaults; a `float()` `ValueError` is caught
by the surrounding `except` and yields the full default pair, as do a
failed fetch and a short field list. -/
def load_tle_parameters (response : Option String) : OrbitalParameters :=
  match fetch_tle_data response with
  | none => default_params
  | some (_, tle_line2) =>
      let fields := pySplitWhitespace tle_line2
      if fields.length < 8 then default_params
      else
        match parsePyFloat ((fields.get? 2).getD []),
              parsePyFloat ((fields.get? 7).getD []) with
        | some incl, some mm =>
            let orbital_period : PyFloat :=
              match mm with
              | .val q => if 0 < q then .val (1440 / q)
                          else .val DEFAULT_ORBITAL_PERIOD
              | .nan => .val DEFAULT_ORBITAL_PERIOD
            let inclination : ℚ :=
              match incl with
              | .nan => DEFAULT_INCLINATION
              | .val q => if q ≤ 0 ∨ 90 < q then DEFAULT_INCLINATION else q
            let period : ℚ :=
              match orbital_period with
              | .nan => DEFAULT_ORBITAL_PERIOD
              | .val q => if q ≤ 0 then DEFAULT_ORBITAL_PERIOD else q
            ⟨inclination, period⟩
        | _, _ => default_params

/-! ## Timestamp bucketing (`round_timestamp_to_5_minutes`)

The Python code parses the ISO string and does
`dt.replace(minute=(dt.minute // 5) * 5, second=0, microsecond=0)`.
On integer seconds since the epoch this is exactly `t - t % 300`
(the minute-within-hour is `(t / 60) % 60`, and since `5 ∣ 60`, zeroing
seconds and flooring the minute to a multiple of 5 subtracts
`60 * (minute % 5) + second = t % 300`). -/

/-- `round_timestamp_to_5_minutes`: floor to the 5-minute boundary at or
before `t` (seconds since epoch). -/
def round_timestamp_to_5_minutes (t : ℤ) : ℤ := t - t % 300

/-! ## PredictionRetriever (`iss_api_bff_web_predictions/utils.py`)

A stored prediction entry is a Firestore dictionary; `dict.get` on a
possibly-missing key is modelled with `Option` fields.  Latitude and
longitude values are only copied, never computed on, so they are exact
rationals here. -/

/-- One entry of a stored `predictions` array, as the retriever reads it
(`pred.get('timestamp')`, `pred.get('latitude')`, `pred.get('longitude')`,
`pred.get('method')`). -/
structure StoredPred where
  timestamp : Option ℤ
  latitude : Option ℚ
  longitude : Option ℚ
  method : Option String
deriving DecidableEq, Repr

/-- A stored `iss_loc_predictions` document, as the retriever reads it. -/
structure PredictionsDoc where
  source_timestamp : Option ℤ
  predictions : List StoredPred
deriving DecidableEq, Repr

/-- A prediction entry after `pred.copy()` plus
`pred_with_source['source_timestamp'] = source_timestamp`; built only for
entries whose `timestamp` key was present, so it is a plain `ℤ` here. -/
structure AttachedPred where
  timestamp : ℤ
  latitude : Option ℚ
  longitude : Option ℚ
  method : Option String
  source_timestamp : Option ℤ
deriving DecidableEq, Repr

/-- The dictionary returned by `get_all_predictions`. -/
structure CurrentPreds where
  orbital_mechanics : List AttachedPred
  sgp4 : List AttachedPred
  prediction_count : ℕ
deriving DecidableEq, Repr

/-- The per-prediction loop body of `get_all_predictions`: skip entries
with no `timestamp` key, skip entries with `pred_dt <= current_time`,
otherwise attach the document's `source_timestamp`. -/
def futurePoints (doc : PredictionsDoc) (now : ℤ) : List AttachedPred :=
  doc.predictions.filterMap fun p =>
    match p.timestamp with
    | none => none
    | some t =>
        if t ≤ now then none
        else some ⟨t, p.latitude, p.longitude, p.method, doc.source_timestamp⟩

/-- `method = pred.get('method', 'orbital_mechanics')`. -/
def methodOf (ap : AttachedPred) : String :=
  ap.method.getD "orbital_mechanics"

/-- The sort order used by `list.sort(key=lambda x: x.get('timestamp', ''))`:
ISO strings of the system's uniform format compare lexicographically as
chronologically, so the key order is the integer timestamp order.  Python's
sort is stable, modelled by the stable `List.insertionSort`. -/
def byTimestamp (a b : AttachedPred) : Prop := a.timestamp ≤ b.timestamp

instance : DecidableRel byTimestamp := fun a b => by
  unfold byTimestamp; infer_instance

/-- `get_all_predictions()`, primary branch.  The latest-document query
result is the `q` argument (`none` = empty query result, giving the early
`{'orbital_mechanics': [], 'sgp4': [], 'prediction_count': 0}` return).
Entries are routed to the `sgp4` list when `method == 'sgp4'` and to the
`orbital_mechanics` list otherwise (including missing or unrecognised
methods), each list sorted by timestamp.  The `except` fallback branch
(a raising Firestore query, re-queried over 50 documents) is not modelled;
a raising query is represented at the `get_all_predictions_data` boundary
instead. -/
def get_all_predictions (q : Option PredictionsDoc) (now : ℤ) : CurrentPreds :=
  match q with
  | none => ⟨[], [], 0⟩
  | some doc =>
      let pts := futurePoints doc now
      let orbital_mechanics_all :=
        List.insertionSort byTimestamp (pts.filter fun ap => methodOf ap ≠ "sgp4")
      let sgp4_all :=
        List.insertionSort byTimestamp (pts.filter fun ap => methodOf ap = "sgp4")
      ⟨orbital_mechanics_all, sgp4_all,
        orbital_mechanics_all.length + sgp4_all.length⟩

/-- The dictionary returned by `get_predictions_for_timestamp` (when not
`None`). -/
structure FetchedPreds where
  orbital_mechanics : List StoredPred
  sgp4 : Option StoredPred
  source_timestamp : Option ℤ
  prediction_count : ℕ
deriving DecidableEq, Repr

/-- `get_predictions_for_timestamp(timestamp)`.  The Firestore read is the
`store` argument keyed by bucket: `.error` = raising read (caught, giving
`None`), `.ok none` = document absent, `.ok (some doc)` = document found.
Splits the document's predictions by `pred.get('method')` — note: with no
default here, so an entry with a missing method is in neither list. -/
def get_predictions_for_timestamp
    (store : ℤ → Except String (Option PredictionsDoc)) (timestamp : ℤ) :
    Option FetchedPreds :=
  let rounded := round_timestamp_to_5_minutes timestamp
  match store rounded with
  | .error _ => none
  | .ok none => none
  | .ok (some doc) =>
      some ⟨doc.predictions.filter fun p => p.method = some "orbital_mechanics",
            (doc.predictions.filter fun p => p.method = some "sgp4").head?,
            doc.source_timestamp,
            doc.predictions.length⟩

/-- One point of a historical series, as projected by
`_process_historical_prediction`. -/
structure HistPoint where
  timestamp : ℤ
  latitude : Option ℚ
  longitude : Option ℚ
  source_timestamp : Option ℤ
deriving DecidableEq, Repr

/-- `_process_historical_prediction(pred_data, cutoff_time, current_time)`:
keep the fetched document's `orbital_mechanics` entries whose timestamp is
in the closed window `[cutoff_time, current_time]`, projected to
`{timestamp, latitude, longitude, source_timestamp}`.  (`if pred_data and
pred_data.get('orbital_mechanics')` short-circuits to `[]` exactly when
the loop below would produce `[]`.) -/
def process_historical_prediction
    (pred_data : Option FetchedPreds) (cutoff_time current_time : ℤ) :
    List HistPoint :=
  match pred_data with
  | none => []
  | some d =>
      d.orbital_mechanics.filterMap fun p =>
        match p.timestamp with
        | none => none
        | some t =>
            if cutoff_time ≤ t ∧ t ≤ current_time then
              some ⟨t, p.latitude, p.longitude, d.source_timestamp⟩
            else none

/-- The dictionary returned by `get_historical_predictions`. -/
structure HistPreds where
  predictions_90min_ago : List HistPoint
  predictions_60min_ago : List HistPoint
  predictions_30min_ago : List HistPoint
deriving DecidableEq, Repr

/-- `get_historical_predictions()`.  The three bucket lookups are
independent (issued on a thread pool with disjoint result slots, joined
before aggregation), so they are modelled as three reads of `store`.
Fetch offsets are 95/65/35 minutes before `now` (each then rounded, and
rounded again inside `get_predictions_for_timestamp`); the filter window
cutoff is `now - 90` minutes. -/
def get_historical_predictions
    (store : ℤ → Except String (Option PredictionsDoc)) (now : ℤ) : HistPreds :=
  let time_90min_ago := now - 95 * 60
  let time_60min_ago := now - 65 * 60
  let time_30min_ago := now - 35 * 60
  let rounded_90min := round_timestamp_to_5_minutes time_90min_ago
  let rounded_60min := round_timestamp_to_5_minutes time_60min_ago
  let rounded_30min := round_timestamp_to_5_minutes time_30min_ago
  let cutoff_time := now - 90 * 60
  let pred_data_90 := get_predictions_for_timestamp store rounded_90min
  let pred_data_60 := get_predictions_for_timestamp store rounded_60min
  let pred_data_30 := get_predictions_for_timestamp store rounded_30min
  ⟨process_historical_prediction pred_data_90 cutoff_time now,
   process_historical_prediction pred_data_60 cutoff_time now,
   process_historical_prediction pred_data_30 cutoff_time now⟩

/-- The dictionary returned by `get_all_predictions_data`.  On the success
path there is no `'error'` key, modelled as `error = none`. -/
structure AllPredictionsData where
  status : String
  error : Option String
  predictions : Option CurrentPreds
  historical_predictions : Option HistPreds
deriving DecidableEq, Repr

/-- `get_all_predictions_data()`.  The two paths run concurrently, each
collected by `future.result(timeout)` under its own `try/except`: a raised
exception or timeout is caught and that slot becomes `None`.  A path can
also itself return `None` (the current path when both its query and its
fallback raise; the historical path on any internal exception), hence each
path outcome is `Except String (Option _)`.  The combining code then
builds `{'status': 'success', ...}` unconditionally; its own `except`
branch (the only producer of `status = 'error'`) is unreachable from path
failures, since those are already caught per-path. -/
def get_all_predictions_data
    (predictions_outcome : Except String (Option CurrentPreds))
    (historical_outcome : Except String (Option HistPreds)) :
    AllPredictionsData :=
  let predictions : Option CurrentPreds :=
    match predictions_outcome with
    | .ok v => v
    | .error _ => none
  let historical_predictions : Option HistPreds :=
    match historical_outcome with
    | .ok v => v
    | .error _ => none
  ⟨"success", none, predictions, historical_predictions⟩

/-! ## OrbitalPhaseModel (`calculate_orbital_phase`,
`calculate_ascending_node_longitude`) and `predict_position`

Float trigonometry is modelled over `ℝ`. -/

/-- Python float `%`: `x % y = x - y * floor(x / y)` (result has the sign
of `y`). -/
noncomputable def pymod (x y : ℝ) : ℝ := x - y * ⌊x / y⌋

/-- `math.radians`. -/
noncomputable def radians (x : ℝ) : ℝ := x * (Real.pi / 180)

/-- `math.degrees`. -/
noncomputable def degrees (x : ℝ) : ℝ := x * (180 / Real.pi)

/-- `math.atan2(y, x)`: the standard two-argument arctangent. -/
noncomputable def atan2 (y x : ℝ) : ℝ :=
  if 0 < x then Real.arctan (y / x)
  else if x < 0 then
    (if 0 ≤ y then Real.arctan (y / x) + Real.pi
     else Real.arctan (y / x) - Real.pi)
  else
    (if 0 < y then Real.pi / 2
     else if y < 0 then -(Real.pi / 2)
     else 0)

/-- `normalize_longitude(lon)`: wraps into `[-180, 180]` by repeated
`±360` adjustment.  The two `while` loops are translated to their closed
forms: `⌈(lon - 180) / 360⌉` subtractions of 360 when `lon > 180`,
`⌈(-180 - lon) / 360⌉` additions when `lon < -180`. -/
noncomputable def normalize_longitude (lon : ℝ) : ℝ :=
  if 180 < lon then lon - 360 * ⌈(lon - 180) / 360⌉
  else if lon < -180 then lon + 360 * ⌈(-180 - lon) / 360⌉
  else lon

/-- `calculate_orbital_phase(current_lat, lat_velocity, inclination)`:
clamp `lat / inclination` to `[-1, 1]`, take the arcsine, resolve the
quadrant from the velocity sign, reduce modulo `2π`. -/
noncomputable def calculate_orbital_phase
    (current_lat lat_velocity inclination : ℝ) : ℝ :=
  let normalized_lat := max (-1) (min 1 (current_lat / inclination))
  let principal_phase := Real.arcsin normalized_lat
  let current_phase :=
    if 0 ≤ lat_velocity then
      if 0 ≤ current_lat then principal_phase
      else 2 * Real.pi + principal_phase
    else Real.pi - principal_phase
  pymod current_phase (2 * Real.pi)

/-- `math.asin` as Python implements it: raises `ValueError: math domain
error` outside `[-1, 1]` (`Real.arcsin` itself is total, so the domain
check is made explicit here). -/
noncomputable def py_asin (x : ℝ) : Except String ℝ :=
  if -1 ≤ x ∧ x ≤ 1 then .ok (Real.arcsin x) else .error "math domain error"

/-- `calculate_orbital_phase` with the `math.asin` domain check kept
explicit, to state reachability of the domain-error branch. -/
noncomputable def calculate_orbital_phase_checked
    (current_lat lat_velocity inclination : ℝ) : Except String ℝ :=
  let normalized_lat := max (-1) (min 1 (current_lat / inclination))
  match py_asin normalized_lat with
  | .error e => .error e
  | .ok principal_phase =>
      let current_phase :=
        if 0 ≤ lat_velocity then
          if 0 ≤ current_lat then principal_phase
          else 2 * Real.pi + principal_phase
        else Real.pi - principal_phase
      .ok (pymod current_phase (2 * Real.pi))

/-- `calculate_ascending_node_longitude(current_lon, current_phase,
inclination)`. -/
noncomputable def calculate_ascending_node_longitude
    (current_lon current_phase inclination : ℝ) : ℝ :=
  let inc_rad := radians inclination
  let sin_phase := Real.sin current_phase
  let cos_phase := Real.cos current_phase
  let lon_offset := atan2 (sin_phase * Real.cos inc_rad) cos_phase
  normalize_longitude (current_lon - degrees lon_offset)

/-- `predict_position(...)`.  Calls `load_tle_parameters()` — one network
fetch — so it consumes `env n` and returns the advanced fetch counter
`n + 1` alongside the predicted `(latitude, longitude)`. -/
noncomputable def predict_position (env : ℕ → Option String)
    (current_lat current_lon previous_lat previous_lon : ℝ)
    (minutes_ahead : ℚ) (time_interval_minutes : ℚ) (n : ℕ) :
    (ℝ × ℝ) × ℕ :=
  let tle_params := load_tle_parameters (env n)
  let inclination : ℝ := (tle_params.inclination : ℝ)
  let orbital_period : ℝ := (tle_params.orbital_period : ℝ)
  let inc_rad := radians inclination
  let lat_velocity := (current_lat - previous_lat) / (time_interval_minutes : ℝ)
  let current_phase := calculate_orbital_phase current_lat lat_velocity inclination
  let ascending_node_lon :=
    calculate_ascending_node_longitude current_lon current_phase inclination
  let omega_orbital := (2 * Real.pi) / orbital_period
  let omega_earth := (2 * Real.pi) / (24 * 60)
  let future_phase :=
    pymod (current_phase + omega_orbital * (minutes_ahead : ℝ)) (2 * Real.pi)
  let predicted_lat := inclination * Real.sin future_phase
  let future_lon_offset :=
    atan2 (Real.sin future_phase * Real.cos inc_rad) (Real.cos future_phase)
  let node_drift := -(degrees (omega_earth * (minutes_ahead : ℝ)))
  let future_node_lon := ascending_node_lon + node_drift
  let predicted_lon := normalize_longitude (future_node_lon + degrees future_lon_offset)
  ((predicted_lat, predicted_lon), n + 1)

/-! ## PositionPredictor batch generation (`generate_predictions`) -/

/-- A ground fix as used by the generator: timestamp (seconds since
epoch), latitude, longitude. -/
structure Fix where
  timestamp : ℤ
  latitude : ℝ
  longitude : ℝ

/-- One generated prediction dictionary.  `timestamp` and
`timestamp_unix` denote the same instant (`future_dt.isoformat()` and
`int(future_dt.timestamp())`), both in seconds here. -/
structure PredictionPoint where
  minutes_ahead : ℕ
  timestamp : ℤ
  timestamp_unix : ℤ
  latitude : ℝ
  longitude : ℝ
  method : String

/-- The stored predictions document, minus the `generated_at` audit stamp
(wall-clock nondeterminism, not constrained by any claim) and the
Firestore document references. -/
structure GeneratedBatch where
  source_timestamp : ℤ
  source_timestamp_unix : ℤ
  source_document_id : String
  source_latitude : ℝ
  source_longitude : ℝ
  source_location : String
  source_country_code : String
  predictions : List PredictionPoint
  prediction_count : ℕ

/-- `range(5, 100, 5)`: the 19 offsets 5, 10, …, 95. -/
def predictionRange : List ℕ := List.range' 5 19 5

/-- The `for minutes_ahead in range(5, 100, 5)` loop of
`generate_predictions`: appends one `PredictionPoint` per offset, each
built from its own `predict_position` call (which advances the fetch
counter). -/
noncomputable def prediction_loop (env : ℕ → Option String)
    (source_latitude source_longitude previous_lat previous_lon : ℝ)
    (time_interval_minutes : ℚ) (rounded : ℤ) :
    List ℕ → List PredictionPoint × ℕ → List PredictionPoint × ℕ
  | [], s => s
  | minutes_ahead :: rest, (acc, n) =>
      let r := predict_position env source_latitude source_longitude
        previous_lat previous_lon (minutes_ahead : ℚ) time_interval_minutes n
      prediction_loop env source_latitude source_longitude previous_lat
        previous_lon time_interval_minutes rounded rest
        (acc ++ [⟨minutes_ahead, rounded + 60 * minutes_ahead,
                  rounded + 60 * minutes_ahead, r.1.1, r.1.2,
                  "orbital_mechanics"⟩], r.2)

/-- `generate_predictions(...)`.  The previous-fix Firestore lookup result
is the `previous_location` argument (`none` = not found).  An `.ok` batch
is exactly the document written to the store under key
`round_timestamp_to_5_minutes source_timestamp`; an `.error` writes
nothing.  The returned `ℕ` is the final TLE fetch counter. -/
noncomputable def generate_predictions (env : ℕ → Option String)
    (source_timestamp : ℤ) (source_latitude source_longitude : ℝ)
    (source_document_id source_location source_country_code : String)
    (previous_location : Option Fix) (n : ℕ) :
    Except String GeneratedBatch × ℕ :=
  let rounded := round_timestamp_to_5_minutes source_timestamp
  match previous_location with
  | none =>
      (.error "Cannot generate predictions: previous location not found in Firestore. Need at least 2 location points to calculate velocity.", n)
  | some prev =>
      let time_interval_minutes : ℚ := ((rounded - prev.timestamp : ℤ) : ℚ) / 60
      if time_interval_minutes ≤ 0 then
        (.error "Invalid time interval: previous location timestamp must be before current.", n)
      else
        let time_interval_minutes :=
          if 30 < time_interval_minutes then DEFAULT_TIME_INTERVAL
          else time_interval_minutes
        let result := prediction_loop env source_latitude source_longitude
          prev.latitude prev.longitude time_interval_minutes rounded
          predictionRange ([], n)
        (.ok ⟨rounded, rounded, source_document_id, source_latitude,
              source_longitude, source_location, source_country_code,
              result.1, result.1.length⟩, result.2)

/-! # Theorems -/

/-! ## C3 — OrbitalParameterProvider failure behaviour -/

/-- C3 (counterexample).  A parameter source whose inclination field reads
`95.0` — which parses fine but fails the `(0, 90]` validation — while the
mean-motion field reads `16.0` yields `{51.6, 90}`: the inclination alone
is defaulted and the period is the parsed `1440 / 16 = 90`, so a
validation failure does *not* return exactly the fixed default pair
`{51.6, 92.9}`. -/
theorem load_tle_parameters_validation_failure_not_defaults :
    parsePyFloat ['9', '5', '.', '0'] = some (.val 95) ∧ (90 : ℚ) < 95 ∧
    load_tle_parameters
      (some "ISS (ZARYA)\n1 25544U\n2 25544 95.0 247.4627 0006703 130.5360 325.0288 16.0") =
      ⟨DEFAULT_INCLINATION, 90⟩ ∧
    (⟨DEFAULT_INCLINATION, 90⟩ : OrbitalParameters) ≠ default_params := by
  refine ⟨?_, by norm_num, ?_, ?_⟩
  · simp [parsePyFloat, pyStripChars, pySplitChar, splitCharAux, digitsToNat]
  · simp [load_tle_parameters, fetch_tle_data, pySplitChar, pySplitWhitespace,
      splitCharAux, pyStripChars, parsePyFloat, digitsToNat,
      DEFAULT_INCLINATION, DEFAULT_ORBITAL_PERIOD, default_params]
    norm_num
  · intro hc
    have := congrArg OrbitalParameters.orbital_period hc
    norm_num [default_params, DEFAULT_ORBITAL_PERIOD] at this

/-- The inclination validation of `load_tle_parameters`: the kept value is
always in `(0, 90]`. -/
theorem tle_inclination_bound (q : ℚ) :
    0 < (if q ≤ 0 ∨ 90 < q then DEFAULT_INCLINATION else q) ∧
    (if q ≤ 0 ∨ 90 < q then DEFAULT_INCLINATION else q) ≤ 90 := by
  split_ifs with h
  · constructor <;> norm_num [DEFAULT_INCLINATION]
  · push_neg at h
    exact ⟨h.1, h.2⟩

/-- The period derivation and validation of `load_tle_parameters`: the
kept value is always positive. -/
theorem tle_period_bound (mm : PyFloat) :
    0 < (match (match mm with
          | PyFloat.val q => if 0 < q then PyFloat.val (1440 / q)
                             else PyFloat.val DEFAULT_ORBITAL_PERIOD
          | PyFloat.nan => PyFloat.val DEFAULT_ORBITAL_PERIOD) with
        | PyFloat.nan => DEFAULT_ORBITAL_PERIOD
        | PyFloat.val q => if q ≤ 0 then DEFAULT_ORBITAL_PERIOD else q) := by
  cases mm with
  | nan => norm_num [DEFAULT_ORBITAL_PERIOD]
  | val q =>
    dsimp only
    split_ifs with h1
    · dsimp only
      split_ifs with h2
      · norm_num [DEFAULT_ORBITAL_PERIOD]
      · exact div_pos (by norm_num) h1
    · dsimp only
      norm_num [DEFAULT_ORBITAL_PERIOD]

/-- C3 (amended).  `load_tle_parameters` never raises (it is a total
function here, every `raise` site of the Python body being wrapped by the
`except` that returns the defaults), its result always satisfies
`0 < inclination ≤ 90` and `0 < orbital_period`, and a failed fetch — a
raising request or a source with fewer than 3 lines — returns exactly the
default pair `{51.6, 92.9}`.  A *validation* failure, however, replaces
only the offending parameter with its individual default (see the
counterexample above). -/
theorem load_tle_parameters_total_valid (response : Option String) :
    (0 < (load_tle_parameters response).inclination ∧
      (load_tle_parameters response).inclination ≤ 90 ∧
      0 < (load_tle_parameters response).orbital_period) ∧
    (fetch_tle_data response = none →
      load_tle_parameters response = default_params) := by
  constructor
  · unfold load_tle_parameters
    split
    · refine ⟨?_, ?_, ?_⟩ <;>
        norm_num [default_params, DEFAULT_INCLINATION, DEFAULT_ORBITAL_PERIOD]
    · dsimp only
      split
      · refine ⟨?_, ?_, ?_⟩ <;>
          norm_num [default_params, DEFAULT_INCLINATION, DEFAULT_ORBITAL_PERIOD]
      · split
        · rename_i incl mm hincl hmm
          dsimp only
          refine ⟨?_, ?_, ?_⟩
          · cases incl with
            | nan => norm_num [DEFAULT_INCLINATION]
            | val q => exact (tle_inclination_bound q).1
          · cases incl with
            | nan => norm_num [DEFAULT_INCLINATION]
            | val q => exact (tle_inclination_bound q).2
          · exact tle_period_bound mm
        · refine ⟨?_, ?_, ?_⟩ <;>
            norm_num [default_params, DEFAULT_INCLINATION, DEFAULT_ORBITAL_PERIOD]
  · intro h
    unfold load_tle_parameters
    rw [h]

/-- C3 (witness).  The amended theorem applied to a raising request:
the result is exactly the default pair. -/
theorem load_tle_parameters_total_valid_witness :
    load_tle_parameters none = default_params :=
  (load_tle_parameters_total_valid none).2 rfl

/-! ## C2 — `get_all_predictions_data` degradation behaviour -/

/-- C2 (counterexample).  When *both* paths degrade (here: both
`future.result` calls raise, e.g. on timeout), the returned status is
still `"success"` — not `"error"` as claimed — and the failed paths are
substituted with `None`, not with well-formed empty placeholders. -/
theorem get_all_predictions_data_both_degraded_status_success :
    get_all_predictions_data (.error "timed out") (.error "timed out") =
      ⟨"success", none, none, none⟩ ∧ "success" ≠ "error" := by
  exact ⟨rfl, by decide⟩

/-- C2 (amended).  `get_all_predictions_data` always returns the fully
structured shape `{status, predictions, historical_predictions}` with
`status = "success"` and no `error` key, whatever the two path outcomes:
a path that raises or times out contributes `None` (not an empty
placeholder) for its slot, and a path that completes contributes its own
return value (which may itself be `None`); the other path's slot is
unaffected.  `status = "error"` is produced only by the function's outer
`except`, which no path failure can reach. -/
theorem get_all_predictions_data_shape
    (po : Except String (Option CurrentPreds))
    (ho : Except String (Option HistPreds)) :
    (get_all_predictions_data po ho).status = "success" ∧
    (get_all_predictions_data po ho).error = none ∧
    (∀ e, po = .error e → (get_all_predictions_data po ho).predictions = none) ∧
    (∀ v, po = .ok v → (get_all_predictions_data po ho).predictions = v) ∧
    (∀ e, ho = .error e →
      (get_all_predictions_data po ho).historical_predictions = none) ∧
    (∀ v, ho = .ok v →
      (get_all_predictions_data po ho).historical_predictions = v) := by
  cases po <;> cases ho <;> simp [get_all_predictions_data]

/-- C2 (witness).  The amended theorem applied to a raising current path
and a successful historical path: the current slot is `None`, the
historical slot carries the historical value. -/
theorem get_all_predictions_data_shape_witness :
    (get_all_predictions_data (.error "boom")
      (.ok (some ⟨[], [], []⟩))).predictions = none ∧
    (get_all_predictions_data (.error "boom")
      (.ok (some ⟨[], [], []⟩))).historical_predictions = some ⟨[], [], []⟩ :=
  ⟨(get_all_predictions_data_shape (.error "boom")
      (.ok (some ⟨[], [], []⟩))).2.2.1 "boom" rfl,
   (get_all_predictions_data_shape (.error "boom")
      (.ok (some ⟨[], [], []⟩))).2.2.2.2.2 (some ⟨[], [], []⟩) rfl⟩

/-! ## C6 — `get_all_predictions` (current view) -/

/-- Bucketing is idempotent: the retriever rounds timestamps that are
already rounded. -/
theorem round5_idem (t : ℤ) :
    round_timestamp_to_5_minutes (round_timestamp_to_5_minutes t) =
    round_timestamp_to_5_minutes t := by
  unfold round_timestamp_to_5_minutes
  omega

instance : IsTotal AttachedPred byTimestamp :=
  ⟨fun a b => le_total a.timestamp b.timestamp⟩

instance : IsTrans AttachedPred byTimestamp :=
  ⟨fun _ _ _ h1 h2 => le_trans h1 h2⟩

/-- Every point surviving the future-filter of `get_all_predictions` has a
timestamp strictly after `now` and carries the document's
`source_timestamp`. -/
theorem mem_futurePoints {doc : PredictionsDoc} {now : ℤ} {ap : AttachedPred}
    (h : ap ∈ futurePoints doc now) :
    now < ap.timestamp ∧ ap.source_timestamp = doc.source_timestamp := by
  unfold futurePoints at h
  rcases List.mem_filterMap.mp h with ⟨p, _, hm⟩
  cases hts : p.timestamp with
  | none => rw [hts] at hm; cases hm
  | some t =>
      rw [hts] at hm
      dsimp only at hm
      by_cases hle : t ≤ now
      · rw [if_pos hle] at hm
        cases hm
      · rw [if_neg hle] at hm
        rw [Option.some.injEq] at hm
        subst hm
        exact ⟨lt_of_not_le hle, rfl⟩

/-- C6 (counterexample).  A surviving point whose `method` is neither
`'sgp4'` nor `'orbital_mechanics'` (here `'linear'`) is *returned* in the
`orbital_mechanics` list: the code partitions on `method == 'sgp4'`
rather than filtering to `method = orbital_mechanics`, so a returned
point need not have method `orbital_mechanics`. -/
theorem get_all_predictions_unknown_method_returned :
    get_all_predictions (some ⟨some 0, [⟨some 10, none, none, some "linear"⟩]⟩) 0 =
      ⟨[⟨10, none, none, some "linear", some 0⟩], [], 1⟩ ∧
    (⟨10, none, none, some "linear", some 0⟩ : AttachedPred).method ≠
      some "orbital_mechanics" :=
  ⟨rfl, by decide⟩

/-- C6 (amended).  When a latest batch is found, every returned point has
timestamp strictly greater than `now` and carries the batch's
`source_timestamp`, and each returned list is sorted ascending by
timestamp; points are routed by `method == 'sgp4'`: the
`orbital_mechanics` list holds exactly the surviving points whose
(defaulted) method differs from `'sgp4'` — not only those whose method is
`orbital_mechanics` — and the `sgp4` list those equal to `'sgp4'`. -/
theorem get_all_predictions_spec (doc : PredictionsDoc) (now : ℤ) :
    (∀ ap ∈ (get_all_predictions (some doc) now).orbital_mechanics,
        now < ap.timestamp ∧ ap.source_timestamp = doc.source_timestamp ∧
        methodOf ap ≠ "sgp4") ∧
    (∀ ap ∈ (get_all_predictions (some doc) now).sgp4,
        now < ap.timestamp ∧ ap.source_timestamp = doc.source_timestamp ∧
        methodOf ap = "sgp4") ∧
    List.Sorted byTimestamp (get_all_predictions (some doc) now).orbital_mechanics ∧
    List.Sorted byTimestamp (get_all_predictions (some doc) now).sgp4 := by
  unfold get_all_predictions
  dsimp only
  refine ⟨?_, ?_, ?_, ?_⟩
  · intro ap h
    rw [(List.perm_insertionSort byTimestamp _).mem_iff] at h
    rw [List.mem_filter] at h
    rcases h with ⟨hmem, hmethod⟩
    rcases mem_futurePoints hmem with ⟨h1, h2⟩
    exact ⟨h1, h2, by simpa using hmethod⟩
  · intro ap h
    rw [(List.perm_insertionSort byTimestamp _).mem_iff] at h
    rw [List.mem_filter] at h
    rcases h with ⟨hmem, hmethod⟩
    rcases mem_futurePoints hmem with ⟨h1, h2⟩
    exact ⟨h1, h2, by simpa using hmethod⟩
  · exact List.sorted_insertionSort byTimestamp _
  · exact List.sorted_insertionSort byTimestamp _

/-- C6 (witness).  The amended theorem applied to a one-point batch with
`now = 1`: the surviving point has timestamp `5 > 1`, carries the batch's
source timestamp `7`, and is not an `'sgp4'` point. -/
theorem get_all_predictions_spec_witness :
    (1 : ℤ) < 5 ∧ (some 7 : Option ℤ) = some 7 ∧
      methodOf ⟨5, none, none, none, some 7⟩ ≠ "sgp4" :=
  (get_all_predictions_spec ⟨some 7, [⟨some 5, none, none, none⟩]⟩ 1).1
    ⟨5, none, none, none, some 7⟩ (by decide)

/-! ## C7 / C8 — `get_historical_predictions` -/

/-- Every point produced by `_process_historical_prediction` lies in the
closed window `[cutoff_time, current_time]`. -/
theorem mem_process_historical {pd : Option FetchedPreds}
    {cutoff_time current_time : ℤ} {p : HistPoint}
    (h : p ∈ process_historical_prediction pd cutoff_time current_time) :
    cutoff_time ≤ p.timestamp ∧ p.timestamp ≤ current_time := by
  unfold process_historical_prediction at h
  cases pd with
  | none => cases h
  | some d =>
      rcases List.mem_filterMap.mp h with ⟨q, _, hm⟩
      cases hts : q.timestamp with
      | none => rw [hts] at hm; cases hm
      | some t =>
          rw [hts] at hm
          dsimp only at hm
          by_cases hwin : cutoff_time ≤ t ∧ t ≤ current_time
          · rw [if_pos hwin] at hm
            rw [Option.some.injEq] at hm
            subst hm
            exact hwin
          · rw [if_neg hwin] at hm
            cases hm

/-- C7.  Every point returned by `get_historical_predictions` — for each
of the three horizons — has its timestamp in the closed interval
`[now - 90 minutes, now]`. -/
theorem get_historical_predictions_window
    (store : ℤ → Except String (Option PredictionsDoc)) (now : ℤ) :
    (∀ p ∈ (get_historical_predictions store now).predictions_90min_ago,
        now - 90 * 60 ≤ p.timestamp ∧ p.timestamp ≤ now) ∧
    (∀ p ∈ (get_historical_predictions store now).predictions_60min_ago,
        now - 90 * 60 ≤ p.timestamp ∧ p.timestamp ≤ now) ∧
    (∀ p ∈ (get_historical_predictions store now).predictions_30min_ago,
        now - 90 * 60 ≤ p.timestamp ∧ p.timestamp ≤ now) := by
  unfold get_historical_predictions
  dsimp only
  exact ⟨fun p h => mem_process_historical h,
         fun p h => mem_process_historical h,
         fun p h => mem_process_historical h⟩

/-- C7 (witness).  The window theorem applied to a store holding, for
every bucket, one orbital-mechanics point at `t = 3000`, with
`now = 6000`: the returned point lies in `[600, 6000]`. -/
theorem get_historical_predictions_window_witness :
    6000 - 90 * 60 ≤ (3000 : ℤ) ∧ (3000 : ℤ) ≤ 6000 :=
  (get_historical_predictions_window
      (fun k => .ok (some ⟨some k, [⟨some 3000, none, none,
        some "orbital_mechanics"⟩]⟩)) 6000).1
    ⟨3000, none, none, some 300⟩ (by decide)

/-- `get_predictions_for_timestamp` returns `None` whenever the store
read at the (re-)rounded bucket raises or finds no document. -/
theorem gpft_none {store : ℤ → Except String (Option PredictionsDoc)} {ts : ℤ}
    (h : ∀ doc, store (round_timestamp_to_5_minutes ts) ≠ .ok (some doc)) :
    get_predictions_for_timestamp store ts = none := by
  unfold get_predictions_for_timestamp
  dsimp only
  cases hs : store (round_timestamp_to_5_minutes ts) with
  | error e => rfl
  | ok v =>
      cases v with
      | none => rfl
      | some doc => exact absurd hs (h doc)

/-- `get_predictions_for_timestamp` depends on the store only through the
single bucket it reads. -/
theorem gpft_congr {store store2 : ℤ → Except String (Option PredictionsDoc)}
    {ts : ℤ}
    (h : store2 (round_timestamp_to_5_minutes ts) =
         store (round_timestamp_to_5_minutes ts)) :
    get_predictions_for_timestamp store2 ts =
    get_predictions_for_timestamp store ts := by
  unfold get_predictions_for_timestamp
  dsimp only
  rw [h]

/-- `gpft_none` at an already-rounded timestamp. -/
theorem gpft_rounded_none {store : ℤ → Except String (Option PredictionsDoc)}
    {t : ℤ}
    (h : ∀ doc, store (round_timestamp_to_5_minutes t) ≠ .ok (some doc)) :
    get_predictions_for_timestamp store (round_timestamp_to_5_minutes t) = none := by
  apply gpft_none
  rw [round5_idem]
  exact h

/-- `gpft_congr` at an already-rounded timestamp. -/
theorem gpft_rounded_congr {store store2 : ℤ → Except String (Option PredictionsDoc)}
    {t : ℤ}
    (h : store2 (round_timestamp_to_5_minutes t) =
         store (round_timestamp_to_5_minutes t)) :
    get_predictions_for_timestamp store2 (round_timestamp_to_5_minutes t) =
    get_predictions_for_timestamp store (round_timestamp_to_5_minutes t) := by
  apply gpft_congr
  rw [round5_idem]
  exact h

/-- C8.  Failure isolation of `get_historical_predictions` (a total
function — the call never fails as a whole): a horizon whose bucket read
raises or finds no document yields `[]` for that horizon, and each
horizon's output depends on the store only through its own bucket
(`now - 95/65/35` minutes, rounded), so a failure on one horizon leaves
the other horizons' results unaffected. -/
theorem get_historical_predictions_isolated
    (store store2 : ℤ → Except String (Option PredictionsDoc)) (now : ℤ) :
    ((∀ doc, store (round_timestamp_to_5_minutes (now - 95 * 60)) ≠ .ok (some doc)) →
      (get_historical_predictions store now).predictions_90min_ago = []) ∧
    ((∀ doc, store (round_timestamp_to_5_minutes (now - 65 * 60)) ≠ .ok (some doc)) →
      (get_historical_predictions store now).predictions_60min_ago = []) ∧
    ((∀ doc, store (round_timestamp_to_5_minutes (now - 35 * 60)) ≠ .ok (some doc)) →
      (get_historical_predictions store now).predictions_30min_ago = []) ∧
    (store2 (round_timestamp_to_5_minutes (now - 95 * 60)) =
        store (round_timestamp_to_5_minutes (now - 95 * 60)) →
      (get_historical_predictions store2 now).predictions_90min_ago =
      (get_historical_predictions store now).predictions_90min_ago) ∧
    (store2 (round_timestamp_to_5_minutes (now - 65 * 60)) =
        store (round_timestamp_to_5_minutes (now - 65 * 60)) →
      (get_historical_predictions store2 now).predictions_60min_ago =
      (get_historical_predictions store now).predictions_60min_ago) ∧
    (store2 (round_timestamp_to_5_minutes (now - 35 * 60)) =
        store (round_timestamp_to_5_minutes (now - 35 * 60)) →
      (get_historical_predictions store2 now).predictions_30min_ago =
      (get_historical_predictions store now).predictions_30min_ago) := by
  refine ⟨fun h => ?_, fun h => ?_, fun h => ?_,
          fun h => ?_, fun h => ?_, fun h => ?_⟩ <;>
    unfold get_historical_predictions <;> dsimp only
  · rw [gpft_rounded_none h]
    rfl
  · rw [gpft_rounded_none h]
    rfl
  · rw [gpft_rounded_none h]
    rfl
  · rw [gpft_rounded_congr h]
  · rw [gpft_rounded_congr h]
  · rw [gpft_rounded_congr h]

/-- C8 (witness).  The isolation theorem applied to a store whose
60-minute bucket (`round5(6000 - 65·60) = 2100`) raises while the other
buckets hold documents: the 60-minute horizon returns `[]`. -/
theorem get_historical_predictions_isolated_witness :
    (get_historical_predictions
      (fun k => if k = 2100 then .error "boom"
        else .ok (some ⟨some k, [⟨some 3000, none, none,
          some "orbital_mechanics"⟩]⟩)) 6000).predictions_60min_ago = [] :=
  (get_historical_predictions_isolated
      (fun k => if k = 2100 then .error "boom"
        else .ok (some ⟨some k, [⟨some 3000, none, none,
          some "orbital_mechanics"⟩]⟩))
      (fun k => if k = 2100 then .error "boom"
        else .ok (some ⟨some k, [⟨some 3000, none, none,
          some "orbital_mechanics"⟩]⟩)) 6000).2.1
    (by
      intro doc h
      norm_num [round_timestamp_to_5_minutes] at h
      exact Except.noConfusion h)

/-! ## C1 / C4 / C5 — batch generation -/

/-- `predict_position` advances the TLE fetch counter by exactly one. -/
theorem predict_position_snd (env : ℕ → Option String)
    (a b c d : ℝ) (m ti : ℚ) (n : ℕ) :
    (predict_position env a b c d m ti n).2 = n + 1 := rfl

/-- Projection of a generated point to its discrete (schedule) fields. -/
def pointSchedule (p : PredictionPoint) : ℕ × ℤ × ℤ × String :=
  (p.minutes_ahead, p.timestamp, p.timestamp_unix, p.method)

/-- The generation loop performs exactly one TLE fetch per offset and
appends one point per offset, whose schedule fields are determined by the
offset and the floored source timestamp alone. -/
theorem prediction_loop_spec (env : ℕ → Option String)
    (lat lon plat plon : ℝ) (ti : ℚ) (rounded : ℤ) (l : List ℕ)
    (acc : List PredictionPoint) (n : ℕ) :
    (prediction_loop env lat lon plat plon ti rounded l (acc, n)).2 = n + l.length ∧
    (prediction_loop env lat lon plat plon ti rounded l (acc, n)).1.map pointSchedule =
      acc.map pointSchedule ++
      l.map (fun m : ℕ =>
        ((m, rounded + 60 * (m : ℤ), rounded + 60 * (m : ℤ), "orbital_mechanics") :
          ℕ × ℤ × ℤ × String)) := by
  induction l generalizing acc n with
  | nil => simp [prediction_loop]
  | cons m ms ih =>
      simp only [prediction_loop]
      rw [predict_position_snd]
      constructor
      · rw [(ih _ _).1]
        simp [Nat.add_assoc, Nat.add_comm 1]
      · rw [(ih _ _).2]
        simp [pointSchedule]

/-- The `time_interval_minutes ≤ 0` test of `generate_predictions`, on the
underlying timestamp difference in seconds. -/
theorem time_interval_nonpos_iff (d : ℤ) : ((d : ℚ) / 60 ≤ 0) ↔ d ≤ 0 := by
  rw [div_le_iff₀ (by norm_num : (0 : ℚ) < 60)]
  norm_num

/-- The `time_interval_minutes > 30` test of `generate_predictions`, on
the underlying timestamp difference in seconds. -/
theorem time_interval_gt_30_iff (d : ℤ) : (30 < (d : ℚ) / 60) ↔ 1800 < d := by
  rw [lt_div_iff₀ (by norm_num : (0 : ℚ) < 60)]
  norm_num
  exact_mod_cast Iff.rfl

/-- C1 (counterexample).  A concrete successful batch generation performs
19 TLE fetches — `load_tle_parameters` runs inside `predict_position`,
once per prediction point — not a single fetch per `generate_predictions`
call. -/
theorem generate_predictions_nineteen_fetches :
    (generate_predictions (fun _ => none) 600 0 0 "" "" "" (some ⟨300, 0, 0⟩) 0).2 = 19 ∧
    (19 : ℕ) ≠ 1 := by
  refine ⟨?_, by decide⟩
  unfold generate_predictions
  dsimp only
  rw [if_neg ((not_iff_not.mpr (time_interval_nonpos_iff _)).mpr (by decide))]
  dsimp only
  rw [(prediction_loop_spec (fun _ => none) 0 0 0 0 _ _ predictionRange [] 0).1]
  rfl

/-- C1 (amended).  On every batch generation with a valid previous fix
(positive floored interval), the orbital parameters are fetched once per
prediction point — exactly 19 fetches per call — each point being computed
from the parameter set its own fetch returned (these coincide only when
the parameter source serves the same response throughout the call). -/
theorem generate_predictions_fetch_count (env : ℕ → Option String)
    (source_timestamp : ℤ) (lat lon : ℝ) (docid loc cc : String)
    (prev : Fix) (n : ℕ)
    (h : 0 < round_timestamp_to_5_minutes source_timestamp - prev.timestamp) :
    (generate_predictions env source_timestamp lat lon docid loc cc
      (some prev) n).2 = n + 19 := by
  unfold generate_predictions
  dsimp only
  rw [if_neg ((not_iff_not.mpr (time_interval_nonpos_iff _)).mpr (not_le.mpr h))]
  dsimp only
  rw [(prediction_loop_spec env lat lon prev.latitude prev.longitude _ _
    predictionRange [] n).1]
  rfl

/-- C1 (witness).  The fetch-count theorem at a concrete valid input:
19 fetches starting from counter 0. -/
theorem generate_predictions_fetch_count_witness :
    (generate_predictions (fun _ => none) 900 0 0 "" "" "" (some ⟨600, 0, 0⟩) 0).2 = 0 + 19 :=
  generate_predictions_fetch_count (fun _ => none) 900 0 0 "" "" "" ⟨600, 0, 0⟩ 0
    (by decide)

set_option maxHeartbeats 1000000 in
/-- Schedule properties of the generation loop over the full offset
range, for any time interval and floored timestamp: 19 points, offsets
`[5, 10, …, 95]` strictly increasing, timestamps an arithmetic
progression of step 300 s anchored at the floored timestamp. -/
theorem prediction_loop_schedule (env : ℕ → Option String)
    (lat lon plat plon : ℝ) (ti : ℚ) (rounded : ℤ) (n : ℕ) :
    (prediction_loop env lat lon plat plon ti rounded predictionRange ([], n)).1.length = 19 ∧
    (prediction_loop env lat lon plat plon ti rounded predictionRange ([], n)).1.map
        (·.minutes_ahead) =
      [5, 10, 15, 20, 25, 30, 35, 40, 45, 50, 55, 60, 65, 70, 75, 80, 85, 90, 95] ∧
    List.Chain' (· < ·)
      ((prediction_loop env lat lon plat plon ti rounded predictionRange ([], n)).1.map
        (·.minutes_ahead)) ∧
    (∀ p ∈ (prediction_loop env lat lon plat plon ti rounded predictionRange ([], n)).1,
      p.timestamp = rounded + 60 * p.minutes_ahead ∧
      p.timestamp_unix = p.timestamp ∧ p.method = "orbital_mechanics") ∧
    List.Chain' (fun a b : ℤ => a + 300 = b)
      ((prediction_loop env lat lon plat plon ti rounded predictionRange
        ([], n)).1.map (·.timestamp)) := by
  have hmap := (prediction_loop_spec env lat lon plat plon ti rounded predictionRange [] n).2
  simp only [List.map_nil, List.nil_append] at hmap
  have hrange : predictionRange = [5, 10, 15, 20, 25, 30, 35, 40, 45, 50, 55,
      60, 65, 70, 75, 80, 85, 90, 95] := by rfl
  have hminutes : (prediction_loop env lat lon plat plon ti rounded
      predictionRange ([], n)).1.map (·.minutes_ahead) =
      [5, 10, 15, 20, 25, 30, 35, 40, 45, 50, 55, 60, 65, 70, 75, 80, 85, 90, 95] := by
    have h2 := congrArg (List.map (fun x : ℕ × ℤ × ℤ × String => x.1)) hmap
    simpa [List.map_map, pointSchedule, Function.comp, hrange] using h2
  have hts : (prediction_loop env lat lon plat plon ti rounded
      predictionRange ([], n)).1.map (·.timestamp) =
      predictionRange.map (fun m : ℕ => rounded + 60 * (m : ℤ)) := by
    have h2 := congrArg (List.map (fun x : ℕ × ℤ × ℤ × String => x.2.1)) hmap
    simpa [List.map_map, pointSchedule, Function.comp] using h2
  refine ⟨?_, hminutes, ?_, ?_, ?_⟩
  · have h2 := congrArg List.length hmap
    simpa [hrange] using h2
  · rw [hminutes]
    norm_num [List.chain'_cons]
  · intro p hp
    have hmem := List.mem_map_of_mem pointSchedule hp
    rw [hmap, hrange] at hmem
    simp only [List.mem_map, List.mem_cons, List.not_mem_nil, or_false] at hmem
    rcases hmem with ⟨m, hm, heq⟩
    rw [pointSchedule, Prod.mk.injEq, Prod.mk.injEq, Prod.mk.injEq] at heq
    rcases heq with ⟨h1, h2, h3, h4⟩
    exact ⟨by rw [← h2, ← h1], by rw [← h3, h2], h4.symm⟩
  · rw [hts, hrange]
    simp only [List.map_cons, List.map_nil, List.chain'_cons,
      List.chain'_singleton, and_true]
    push_cast
    omega

/-- C4.  With a valid previous fix (positive floored interval), batch
generation succeeds and yields exactly 19 points with
`minutes_ahead = [5, 10, …, 95]` strictly increasing, each timestamp
equal to the 5-minute floor of the source timestamp plus `minutes_ahead`
(in seconds: `60 · minutes_ahead`), the timestamps strictly increasing in
steps of exactly 300 seconds. -/
theorem generate_predictions_schedule (env : ℕ → Option String)
    (source_timestamp : ℤ) (lat lon : ℝ) (docid loc cc : String)
    (prev : Fix) (n : ℕ)
    (h : 0 < round_timestamp_to_5_minutes source_timestamp - prev.timestamp) :
    ((generate_predictions env source_timestamp lat lon docid loc cc
        (some prev) n).1.isOk = true) ∧
    ∀ batch,
      (generate_predictions env source_timestamp lat lon docid loc cc
        (some prev) n).1 = .ok batch →
      batch.predictions.length = 19 ∧
      batch.predictions.map (·.minutes_ahead) =
        [5, 10, 15, 20, 25, 30, 35, 40, 45, 50, 55, 60, 65, 70, 75, 80, 85, 90, 95] ∧
      List.Chain' (· < ·) (batch.predictions.map (·.minutes_ahead)) ∧
      (∀ p ∈ batch.predictions,
        p.timestamp = round_timestamp_to_5_minutes source_timestamp +
          60 * p.minutes_ahead ∧
        p.timestamp_unix = p.timestamp ∧ p.method = "orbital_mechanics") ∧
      List.Chain' (fun a b : ℤ => a + 300 = b)
        (batch.predictions.map (·.timestamp)) := by
  unfold generate_predictions
  dsimp only
  rw [if_neg ((not_iff_not.mpr (time_interval_nonpos_iff _)).mpr (not_le.mpr h))]
  dsimp only
  constructor
  · rfl
  · intro batch hb
    rw [Except.ok.injEq] at hb
    subst hb
    dsimp only
    exact prediction_loop_schedule env lat lon prev.latitude prev.longitude _ _ n

/-- C4 (witness).  The schedule theorem at a concrete valid input: the
generation call succeeds. -/
theorem generate_predictions_schedule_witness :
    (generate_predictions (fun _ => none) 600 0 0 "" "" "" (some ⟨300, 0, 0⟩) 0).1.isOk = true :=
  (generate_predictions_schedule (fun _ => none) 600 0 0 "" "" "" ⟨300, 0, 0⟩ 0
    (by decide)).1

/-- C5 (counterexample).  The interval the code tests is computed from
the *floored* source timestamp, not from the source fix itself: for a
source fix at `t = 540 s` (floor 300) and a previous fix at `t = 360 s`,
the true interval between the fixes is `180 s = 3 min > 0`, yet
generation aborts with the hard `Invalid time interval` error because
`300 - 360 ≤ 0`. -/
theorem generate_predictions_rounding_skews_interval :
    (0 : ℤ) < 540 - 360 ∧
    round_timestamp_to_5_minutes 540 - 360 = -60 ∧
    (generate_predictions (fun _ => none) 540 0 0 "" "" "" (some ⟨360, 0, 0⟩) 0).1 =
      .error "Invalid time interval: previous location timestamp must be before current." := by
  refine ⟨by decide, by decide, ?_⟩
  unfold generate_predictions
  dsimp only
  rw [if_pos ((time_interval_nonpos_iff _).mpr (by decide))]

/-- C5 (amended).  With `Δt` taken as the code computes it — the
difference between the *floored* source timestamp and the previous fix's
timestamp — generation aborts with the hard `Invalid time interval` error
(returning it, writing nothing, and performing no fetch) exactly when
`Δt ≤ 0`; when `Δt > 0` it succeeds; and when `Δt > 30` minutes it does
not fail but substitutes the fixed default interval of 5 minutes
(`DEFAULT_TIME_INTERVAL`) for the velocity computation in every point. -/
theorem generate_predictions_interval_policy (env : ℕ → Option String)
    (source_timestamp : ℤ) (lat lon : ℝ) (docid loc cc : String)
    (prev : Fix) (n : ℕ) :
    (round_timestamp_to_5_minutes source_timestamp - prev.timestamp ≤ 0 →
      generate_predictions env source_timestamp lat lon docid loc cc (some prev) n =
        (.error "Invalid time interval: previous location timestamp must be before current.", n)) ∧
    (0 < round_timestamp_to_5_minutes source_timestamp - prev.timestamp →
      (generate_predictions env source_timestamp lat lon docid loc cc
        (some prev) n).1.isOk = true) ∧
    (1800 < round_timestamp_to_5_minutes source_timestamp - prev.timestamp →
      generate_predictions env source_timestamp lat lon docid loc cc (some prev) n =
        (let rounded := round_timestamp_to_5_minutes source_timestamp
         let result := prediction_loop env lat lon prev.latitude prev.longitude
           DEFAULT_TIME_INTERVAL rounded predictionRange ([], n)
         (.ok ⟨rounded, rounded, docid, lat, lon, loc, cc, result.1, result.1.length⟩,
          result.2))) := by
  refine ⟨fun h => ?_, fun h => ?_, fun h => ?_⟩
  · unfold generate_predictions
    dsimp only
    rw [if_pos ((time_interval_nonpos_iff _).mpr h)]
  · unfold generate_predictions
    dsimp only
    rw [if_neg ((not_iff_not.mpr (time_interval_nonpos_iff _)).mpr (not_le.mpr h))]
    rfl
  · unfold generate_predictions
    dsimp only
    rw [if_neg ((not_iff_not.mpr (time_interval_nonpos_iff _)).mpr
        (not_le.mpr (by omega)))]
    rw [if_pos ((time_interval_gt_30_iff _).mpr h)]

/-- C5 (witness).  The interval policy at `Δt = 40 min` (`2400 s`, above
the 30-minute bound): generation succeeds and every point is computed
with the default 5-minute interval. -/
theorem generate_predictions_interval_policy_witness :
    generate_predictions (fun _ => none) 2400 0 0 "" "" "" (some ⟨0, 0, 0⟩) 0 =
      (let rounded := round_timestamp_to_5_minutes 2400
       let result := prediction_loop (fun _ => none) 0 0 0 0
         DEFAULT_TIME_INTERVAL rounded predictionRange ([], 0)
       (.ok ⟨rounded, rounded, "", 0, 0, "", "", result.1, result.1.length⟩,
        result.2)) :=
  (generate_predictions_interval_policy (fun _ => none) 2400 0 0 "" "" ""
    ⟨0, 0, 0⟩ 0).2.2 (by decide)

/-! ## C9 / C10 — orbital phase -/

/-- Python float `%` with a positive right operand lands in `[0, y)`. -/
theorem pymod_mem (x y : ℝ) (hy : 0 < y) : 0 ≤ pymod x y ∧ pymod x y < y := by
  unfold pymod
  have hfl : (⌊x / y⌋ : ℝ) ≤ x / y := Int.floor_le (x / y)
  have hfu : x / y < ⌊x / y⌋ + 1 := Int.lt_floor_add_one (x / y)
  constructor
  · rw [sub_nonneg, mul_comm]
    exact (le_div_iff₀ hy).mp hfl
  · have h2 := (div_lt_iff₀ hy).mp hfu
    rw [sub_lt_iff_lt_add]
    ring_nf
    ring_nf at h2
    linarith

/-- C9.  For positive inclination, `calculate_orbital_phase` equals the
quadrant-resolved arcsine of the clamped latitude ratio, reduced modulo
`2π`, and the returned phase lies in `[0, 2π)`. -/
theorem calculate_orbital_phase_spec (lat vel inc : ℝ) (h : 0 < inc) :
    calculate_orbital_phase lat vel inc =
      pymod (if 0 ≤ vel then
               (if 0 ≤ lat then Real.arcsin (max (-1) (min 1 (lat / inc)))
                else 2 * Real.pi + Real.arcsin (max (-1) (min 1 (lat / inc))))
             else Real.pi - Real.arcsin (max (-1) (min 1 (lat / inc))))
        (2 * Real.pi) ∧
    0 ≤ calculate_orbital_phase lat vel inc ∧
    calculate_orbital_phase lat vel inc < 2 * Real.pi := by
  have h2pi : (0 : ℝ) < 2 * Real.pi := by positivity
  refine ⟨rfl, ?_, ?_⟩
  · exact (pymod_mem _ _ h2pi).1
  · exact (pymod_mem _ _ h2pi).2

/-- C9 (witness).  The phase-range theorem at `lat = 0`, `vel = 0`,
`inclination = 1 > 0`. -/
theorem calculate_orbital_phase_spec_witness :
    (0 : ℝ) < 1 ∧ 0 ≤ calculate_orbital_phase 0 0 1 ∧
    calculate_orbital_phase 0 0 1 < 2 * Real.pi :=
  ⟨by norm_num, (calculate_orbital_phase_spec 0 0 1 (by norm_num)).2.1,
   (calculate_orbital_phase_spec 0 0 1 (by norm_num)).2.2⟩

/-- C10.  For any nonzero inclination (Python would raise
`ZeroDivisionError` before reaching `asin` when it is zero), the ratio
`lat / inclination` is clamped to `[-1, 1]` before `math.asin` is applied,
so the `asin` domain-error branch is unreachable: the checked variant
returns `.ok` of the unchecked phase for *every* latitude, including
latitudes whose magnitude exceeds the inclination. -/
theorem calculate_orbital_phase_checked_total (lat vel inc : ℝ) (h : inc ≠ 0) :
    -1 ≤ max (-1) (min 1 (lat / inc)) ∧ max (-1) (min 1 (lat / inc)) ≤ 1 ∧
    calculate_orbital_phase_checked lat vel inc =
      .ok (calculate_orbital_phase lat vel inc) := by
  have h1 : -1 ≤ max (-1) (min 1 (lat / inc)) := le_max_left _ _
  have h2 : max (-1) (min 1 (lat / inc)) ≤ 1 :=
    max_le (by norm_num) (min_le_left _ _)
  refine ⟨h1, h2, ?_⟩
  unfold calculate_orbital_phase_checked py_asin calculate_orbital_phase
  dsimp only
  rw [if_pos ⟨h1, h2⟩]

/-- C10 (witness).  The totality theorem where the observed latitude
(`80°`) exceeds the fallback inclination (`51.6°`): a phase is still
returned. -/
theorem calculate_orbital_phase_checked_total_witness :
    ((51.6 : ℝ) ≠ 0) ∧
    calculate_orbital_phase_checked 80 (-1) 51.6 =
      .ok (calculate_orbital_phase 80 (-1) 51.6) :=
  ⟨by norm_num,
   (calculate_orbital_phase_checked_total 80 (-1) 51.6 (by norm_num)).2.2⟩

end ISS
